import Mathlib

/-!
Verification of the logger repository's formatting-and-writing pipeline.

Shallow embedding of:
  - the `DefaultFormat` rendering logic (src/fmt/mod.rs),
  - the `Writer` / `BufferWriter` output layer (src/fmt/writer/mod.rs,
    src/fmt/writer/buffer.rs),
  - the `Logger::log` dispatch path with its thread-local formatter
    cache (src/logger.rs).

External crates are modelled at their interface boundary:
  - `log::Level` as an enumeration with its uppercase display strings;
  - `anstyle` styles as the pair of escape strings their Display impl
    emits: the opening sequence for `style` and the reset
    sequence for the alternate form; an empty `Style::new()` renders
    nothing in both positions;
  - `anstream::ColorChoice` as a four-valued enumeration;
  - `anstream::AutoStream` as a color-aware pass/strip filter;
  - the `env_filter` capability as an opaque `Record -> Bool` predicate.

Machine I/O is modelled by an explicit `SinkState` carrying the bytes
delivered to stdout, stderr and the pipe, a poison flag for the pipe's
mutex, and an error-injection flag standing for a failing stream write.
Rust panics are modelled as the `Except.error` outcome; recoverable
`io::Result` errors are a separate, non-propagating constructor.
-/

namespace Logging

/-- `log::Level` (external crate, interface boundary): ordered severity. -/
inductive Level where
  | trace
  | debug
  | info
  | warn
  | error
deriving DecidableEq, Repr

/-- `log::Level`'s Display output (uppercase), used by `fmt.pad`. -/
def Level.asStr : Level → String
  | .trace => "TRACE"
  | .debug => "DEBUG"
  | .info => "INFO"
  | .warn => "WARN"
  | .error => "ERROR"

/-- A `log::Record` restricted to the fields the pipeline reads:
level, target string, optional module path, and the rendered message
(`record.args()`). -/
structure Record where
  level : Level
  target : String
  module_path : Option String
  args : String
deriving DecidableEq, Repr

/-- `anstream::ColorChoice` (external crate, interface boundary). -/
inductive ColorChoice where
  | auto
  | alwaysAnsi
  | always
  | never
deriving DecidableEq, Repr

/-- An `anstyle::Style` modelled by the two byte strings its Display
impl writes: the opening escape sequence (plain form) and the reset
sequence (alternate form). `Style::new()` renders nothing in either
position, which is how color suppression works in the source. -/
structure Style where
  openSeq : String
  resetSeq : String
deriving DecidableEq, Repr

/-- `anstyle::Style::new()`: the empty style, renders no bytes. -/
def Style.new : Style := ⟨"", ""⟩

/-- `anstyle::AnsiColor::Cyan.on_default()`. -/
def Style.cyan : Style := ⟨"\x1b[36m", "\x1b[0m"⟩

/-- `anstyle::AnsiColor::Blue.on_default()`. -/
def Style.blue : Style := ⟨"\x1b[34m", "\x1b[0m"⟩

/-- `anstyle::AnsiColor::Green.on_default()`. -/
def Style.green : Style := ⟨"\x1b[32m", "\x1b[0m"⟩

/-- `anstyle::AnsiColor::Yellow.on_default()`. -/
def Style.yellow : Style := ⟨"\x1b[33m", "\x1b[0m"⟩

/-- `anstyle::AnsiColor::Red.on_default().effects(Effects::BOLD)`. -/
def Style.boldRed : Style := ⟨"\x1b[1m\x1b[31m", "\x1b[0m"⟩

/-- `anstyle::AnsiColor::BrightBlack.on_default()`. -/
def Style.brightBlack : Style := ⟨"\x1b[90m", "\x1b[0m"⟩

/-- The Display impl of `StyledValue` in src/fmt/mod.rs: style opening
sequence, then the value (which receives the caller's width settings),
then the style reset. -/
def styledValue (s : Style) (v : String) : String :=
  s.openSeq ++ v ++ s.resetSeq

/-- Rust's `fmt.pad` with the format spec `{:<5}` as applied to a level
name: left-justify, pad with spaces to width 5 (never truncates a level
name, all are at most 5 characters). -/
def padTo5 (s : String) : String :=
  s ++ String.mk (List.replicate (5 - s.length) ' ')

/-- `Formatter::default_level_style` (src/fmt/mod.rs): the identity
style when the resolved color choice is Never, otherwise the per-level
color mapping. -/
def default_level_style (cc : ColorChoice) (level : Level) : Style :=
  if cc = ColorChoice.never then Style.new
  else
    match level with
    | .trace => Style.cyan
    | .debug => Style.blue
    | .info => Style.green
    | .warn => Style.yellow
    | .error => Style.boldRed

/-- The configuration fields of `DefaultFormat` (src/fmt/mod.rs),
captured from the format `Builder` at build time. The mutable
`written_header_value` flag and the output buffer are threaded
separately as `DFState`. -/
structure DefaultFormat where
  module_path : Bool
  target : Bool
  level : Bool
  suffix : String
deriving DecidableEq, Repr

/-- The mutable state of a `DefaultFormat::write` run: the
`written_header_value` flag plus the Formatter's byte buffer being
appended to. Buffer appends (`Buffer::write`) always succeed, so the
whole rendering pass is infallible and modelled as a pure function. -/
structure DFState where
  written_header_value : Bool
  buf : String
deriving DecidableEq, Repr

/-- `DefaultFormat::subtle_style`: identity style under Never,
bright-black otherwise; used for the header bracket glyphs. -/
def DefaultFormat.subtle_style (cc : ColorChoice) : Style :=
  if cc = ColorChoice.never then Style.new else Style.brightBlack

/-- `DefaultFormat::write_header_value`: the first header field opens
the subtle-styled bracket, later fields are preceded by a single
space. -/
def DefaultFormat.write_header_value (cc : ColorChoice) (st : DFState)
    (value : String) : DFState :=
  if st.written_header_value then
    { st with buf := st.buf ++ " " ++ value }
  else
    { written_header_value := true
      buf := st.buf ++ styledValue (DefaultFormat.subtle_style cc) "[" ++ value }

/-- `DefaultFormat::write_level`: when enabled, the level name is
left-padded to width 5 inside the level's style and written as a header
value. -/
def DefaultFormat.write_level (fmt : DefaultFormat) (cc : ColorChoice)
    (r : Record) (st : DFState) : DFState :=
  if fmt.level then
    DefaultFormat.write_header_value cc st
      (styledValue (default_level_style cc r.level) (padTo5 r.level.asStr))
  else st

/-- `DefaultFormat::write_module_path`: when enabled and the record has
a module path, it is written as a header value (unstyled). -/
def DefaultFormat.write_module_path (fmt : DefaultFormat) (cc : ColorChoice)
    (r : Record) (st : DFState) : DFState :=
  if fmt.module_path then
    match r.module_path with
    | some mp => DefaultFormat.write_header_value cc st mp
    | none => st
  else st

/-- `DefaultFormat::write_target`: when enabled and the record's target
is non-empty, it is written as a header value (unstyled). -/
def DefaultFormat.write_target (fmt : DefaultFormat) (cc : ColorChoice)
    (r : Record) (st : DFState) : DFState :=
  if fmt.target then
    if r.target = "" then st
    else DefaultFormat.write_header_value cc st r.target
  else st

/-- `DefaultFormat::finish_header`: when any header field was written,
close the subtle-styled bracket and write one separating space. -/
def DefaultFormat.finish_header (cc : ColorChoice) (st : DFState) : DFState :=
  if st.written_header_value then
    { st with buf := st.buf ++ styledValue (DefaultFormat.subtle_style cc) "]" ++ " " }
  else st

/-- `DefaultFormat::write_args`: the record's message, verbatim. -/
def DefaultFormat.write_args (r : Record) (st : DFState) : DFState :=
  { st with buf := st.buf ++ r.args }

/-- `DefaultFormat::write`: level, module path, target, header close,
message, then the configured suffix, appended to the Formatter's
current buffer `buf0` (empty in the log path). `cc` is the Formatter's
color-choice snapshot, consulted by the style helpers. -/
def DefaultFormat.write (fmt : DefaultFormat) (cc : ColorChoice)
    (r : Record) (buf0 : String) : String :=
  let st : DFState := ⟨false, buf0⟩
  let st := fmt.write_level cc r st
  let st := fmt.write_module_path cc r st
  let st := fmt.write_target cc r st
  let st := DefaultFormat.finish_header cc st
  let st := DefaultFormat.write_args r st
  st.buf ++ fmt.suffix

/-! ## ANSI escape stripping

A small state machine removing CSI escape sequences (ESC `[` params
final-byte) from a character list. It is used (a) to model the
color-stripping behaviour of `anstream::AutoStream` under a Never
choice, and (b) to make precise the spec's phrase "with its escape
sequences removed". -/

/-- State of the strip machine: ordinary text, just after ESC, or
inside a CSI sequence. -/
inductive StripMode where
  | norm
  | esc
  | csi
deriving DecidableEq, Repr

/-- Strip CSI escape sequences: an ESC is always dropped; ESC `[`
enters CSI mode, which drops characters up to and including the final
byte (0x40-0x7e); a lone ESC before any other character is dropped and
that character is kept. -/
def stripGo (m : StripMode) : List Char → List Char
  | [] => []
  | c :: r =>
    match m with
    | .norm => if c = '\x1b' then stripGo .esc r else c :: stripGo .norm r
    | .esc => if c = '[' then stripGo .csi r else c :: stripGo .norm r
    | .csi =>
        if 0x40 ≤ c.toNat ∧ c.toNat ≤ 0x7e then stripGo .norm r
        else stripGo .csi r

/-- Remove all CSI escape sequences from a string. -/
def stripAnsi (s : String) : String := String.mk (stripGo .norm s.data)

/-- Whether a string contains the ESC byte that introduces an ANSI
styling sequence. -/
def hasEsc (s : String) : Bool := s.data.any fun c => c = '\x1b'

/-! ## Writer layer (src/fmt/writer) -/

/-- The two real destination streams whose terminal capability the
color resolver may inspect. -/
inductive Stream where
  | stdoutStream
  | stderrStream
deriving DecidableEq, Repr

/-- `WritableTarget` (src/fmt/writer/buffer.rs): the five concrete
output destinations. The pipe's boxed sink itself lives in `SinkState`. -/
inductive WritableTarget where
  | writeStdout
  | printStdout
  | writeStderr
  | printStderr
  | pipe
deriving DecidableEq, Repr

/-- The observable state of the process's output destinations: bytes
delivered to each sink, the poison flag of the pipe's mutex, and an
error-injection flag standing for `write_all`/`flush` failing on a
real stream or the pipe. -/
structure SinkState where
  stdout : String
  stderr : String
  pipeSink : String
  pipePoisoned : Bool
  ioError : Bool
deriving DecidableEq, Repr

/-- Outcome of a print operation: success, a recoverable `io::Error`,
or a Rust panic (which propagates, unlike the error). -/
inductive PrintOutcome where
  | ok
  | ioErr
  | panicked (msg : String)
deriving DecidableEq, Repr

/-- Modelled from the spec: `anstream::AutoStream` (external crate) is
a color-capability-aware filter that strips ANSI escape sequences when
the resolved choice is Never and passes bytes through otherwise. -/
def autoStreamFilter (cc : ColorChoice) (buf : String) : String :=
  if cc = ColorChoice.never then stripAnsi buf else buf

/-- `BufferWriter` (src/fmt/writer/buffer.rs): a destination paired
with the resolved color choice. -/
structure BufferWriter where
  target : WritableTarget
  write_style : ColorChoice
deriving DecidableEq, Repr

/-- `BufferWriter::stdout`: the test flag selects the capture variant. -/
def BufferWriter.stdoutWriter (is_test : Bool) (write_style : ColorChoice) :
    BufferWriter :=
  { target := if is_test then .printStdout else .writeStdout, write_style }

/-- `BufferWriter::stderr`: the test flag selects the capture variant. -/
def BufferWriter.stderrWriter (is_test : Bool) (write_style : ColorChoice) :
    BufferWriter :=
  { target := if is_test then .printStderr else .writeStderr, write_style }

/-- `BufferWriter::pipe`. -/
def BufferWriter.pipeWriter (write_style : ColorChoice) : BufferWriter :=
  { target := .pipe, write_style }

/-- `BufferWriter::print` (src/fmt/writer/buffer.rs). Write-variants
push the bytes through the color-aware `AutoStream` filter and can
fail with an `io::Error` (modelled by the injection flag; a failed
write delivers nothing). Capture variants use `print!`/`eprint!` on the
lossily decoded text and cannot fail. The pipe variant first takes the
mutex: a poisoned guard panics (`lock().unwrap()`); otherwise it writes
and flushes, which can fail with an `io::Error`. -/
def BufferWriter.print (w : BufferWriter) (buf : String) (s : SinkState) :
    PrintOutcome × SinkState :=
  match w.target with
  | .writeStdout =>
      if s.ioError then (.ioErr, s)
      else (.ok, { s with stdout := s.stdout ++ autoStreamFilter w.write_style buf })
  | .printStdout => (.ok, { s with stdout := s.stdout ++ buf })
  | .writeStderr =>
      if s.ioError then (.ioErr, s)
      else (.ok, { s with stderr := s.stderr ++ autoStreamFilter w.write_style buf })
  | .printStderr => (.ok, { s with stderr := s.stderr ++ buf })
  | .pipe =>
      if s.pipePoisoned then (.panicked "PoisonError", s)
      else if s.ioError then (.ioErr, s)
      else (.ok, { s with pipeSink := s.pipeSink ++ buf })

/-- `Writer` (src/fmt/writer/mod.rs): wraps a `BufferWriter`. -/
structure Writer where
  inner : BufferWriter
deriving DecidableEq, Repr

/-- `Writer::write_style`. -/
def Writer.write_style (w : Writer) : ColorChoice := w.inner.write_style

/-- `Writer::print`: delegates to the inner `BufferWriter`. -/
def Writer.print (w : Writer) (buf : String) (s : SinkState) :
    PrintOutcome × SinkState :=
  w.inner.print buf s

/-- `Target` (src/fmt/writer/target.rs is absent from src; the three
variants are fixed by the exhaustive matches in
src/fmt/writer/mod.rs): stdout, stderr, or a custom pipe sink. -/
inductive Target where
  | stdout
  | stderr
  | pipe
deriving DecidableEq, Repr

/-- The writer `Builder` (src/fmt/writer/mod.rs). -/
structure WBuilder where
  target : Target
  built : Bool
  is_test : Bool
deriving DecidableEq, Repr

/-- `Builder::build` (src/fmt/writer/mod.rs). `cap` is the external
color resolver `anstream::AutoStream::choice` applied to the real
stream handle; a pipe target forces Never without consulting it. The
`assert!` against reuse is modelled as the panic (`Except.error`)
outcome. `mem::take` also resets the target field to its default; the
default lives in the absent target.rs and no theorem depends on it, so
the returned builder keeps its target and only flips `built`. -/
def WBuilder.build (cap : Stream → ColorChoice) (b : WBuilder) :
    Except String (Writer × WBuilder) :=
  if b.built then Except.error "attempt to re-use consumed builder"
  else
    let color_choice :=
      match b.target with
      | .stdout => cap .stdoutStream
      | .stderr => cap .stderrStream
      | .pipe => ColorChoice.never
    let writer :=
      match b.target with
      | .stdout => BufferWriter.stdoutWriter b.is_test color_choice
      | .stderr => BufferWriter.stderrWriter b.is_test color_choice
      | .pipe => BufferWriter.pipeWriter color_choice
    Except.ok (⟨writer⟩, { b with built := true })

/-! ## Formatter and format builder (src/fmt/mod.rs) -/

/-- `Formatter`: a byte buffer plus the color-choice snapshot taken
from the Writer at creation time. -/
structure Formatter where
  buf : String
  write_style : ColorChoice
deriving DecidableEq, Repr

/-- `Formatter::new`: a fresh empty buffer (`writer.buffer()`) and the
writer's color choice. -/
def Formatter.new (w : Writer) : Formatter :=
  { buf := "", write_style := w.write_style }

/-- `Formatter::clear`: truncate the buffer to empty. -/
def Formatter.clear (f : Formatter) : Formatter := { f with buf := "" }

/-- `Formatter::print`: deliver the buffer's bytes through the Writer.
The Rust method takes `&self` and reads the buffer through a shared
borrow, so the Formatter (first component of the result) is returned
unchanged. -/
def Formatter.print (f : Formatter) (w : Writer) (s : SinkState) :
    Formatter × PrintOutcome × SinkState :=
  let res := w.print f.buf s
  (f, res.1, res.2)

/-- `FormatFn` (src/fmt/mod.rs): a fallible rendering function that
writes into the Formatter's buffer. The `io::Error` payload is opaque. -/
def FormatFn : Type := Formatter → Record → Formatter × Except Unit Unit

/-- The rendering closure produced by the format `Builder::build`: runs
`DefaultFormat::write` with the captured configuration, a fresh
`written_header_value` flag, and the Formatter's color choice; buffer
writes cannot fail, so it always returns Ok. -/
def formatFnOf (cfg : DefaultFormat) : FormatFn :=
  fun f r =>
    ({ f with buf := cfg.write f.write_style r f.buf }, Except.ok ())

/-- The format `Builder` (src/fmt/mod.rs). -/
structure FmtBuilder where
  format_module_path : Bool
  format_target : Bool
  format_level : Bool
  format_suffix : String
  built : Bool
deriving DecidableEq, Repr

/-- `impl Default for Builder` (src/fmt/mod.rs): module path off,
target on, level on, newline suffix, not yet built. -/
def FmtBuilder.default : FmtBuilder :=
  { format_module_path := false
    format_target := true
    format_level := true
    format_suffix := "\n"
    built := false }

/-- The format `Builder::build` (src/fmt/mod.rs): asserts against
reuse (modelled as the panic outcome), snapshots the configuration
into the rendering closure, and leaves behind a default-configured
builder marked consumed (`mem::replace`). -/
def FmtBuilder.build (b : FmtBuilder) :
    Except String (FormatFn × FmtBuilder) :=
  if b.built then Except.error "attempt to re-use consumed builder"
  else
    Except.ok
      (formatFnOf
        ⟨b.format_module_path, b.format_target, b.format_level, b.format_suffix⟩,
       { FmtBuilder.default with built := true })

/-! ## Logger dispatch (src/logger.rs) -/

/-- `Logger`: the filter capability (opaque `env_filter` predicate),
the Writer, and the format function. -/
structure Logger where
  filterMatches : Record → Bool
  writer : Writer
  format : FormatFn

/-- `Logger::matches`: delegates to the filter capability. -/
def Logger.matches (lg : Logger) (r : Record) : Bool := lg.filterMatches r

/-- The state of the thread-local `FORMATTER` slot as seen by one
`log` call: `try_with` fails (thread tearing down), `try_borrow_mut`
fails (re-entrant call), or the slot is accessible and holds an
optional cached Formatter. -/
inductive TLSlot where
  | unavailable
  | borrowed
  | stored : Option Formatter → TLSlot

/-- The `print` closure inside `Logger::log`: run the format function,
`and_then` print through the Writer, discard the `io::Result` with
`let _ =`, then clear the Formatter's buffer. A panic from the print
path (poisoned pipe mutex) propagates before the clear runs and is the
`Except.error` outcome; recoverable errors are swallowed. -/
def Logger.printStep (lg : Logger) (f : Formatter) (r : Record)
    (s : SinkState) : Except String (Formatter × SinkState) :=
  match lg.format f r with
  | (f1, .error _) => Except.ok (f1.clear, s)
  | (f1, .ok _) =>
    match f1.print lg.writer s with
    | (_, .panicked msg, _) => Except.error msg
    | (f2, .ok, s') => Except.ok (f2.clear, s')
    | (f2, .ioErr, s') => Except.ok (f2.clear, s')

/-- `Logger::log` (src/logger.rs): filter, then dispatch on the
thread-local slot. A cached Formatter whose color-choice snapshot
differs from the Writer's is discarded and recreated; an empty slot
caches the Formatter it creates; a borrowed or unavailable slot falls
back to a one-shot Formatter that is not cached. The result pairs the
slot's state after the call with the sink state; a panic from printing
propagates as `Except.error`. -/
def Logger.log (lg : Logger) (tls : TLSlot) (r : Record) (s : SinkState) :
    Except String (TLSlot × SinkState) :=
  if lg.matches r then
    match tls with
    | .stored (some f0) =>
        (lg.printStep
          (if f0.write_style ≠ lg.writer.write_style then Formatter.new lg.writer
           else f0) r s).map fun p => (.stored (some p.1), p.2)
    | .stored none =>
        (lg.printStep (Formatter.new lg.writer) r s).map
          fun p => (.stored (some p.1), p.2)
    | .borrowed =>
        (lg.printStep (Formatter.new lg.writer) r s).map
          fun p => (.borrowed, p.2)
    | .unavailable =>
        (lg.printStep (Formatter.new lg.writer) r s).map
          fun p => (.unavailable, p.2)
  else Except.ok (tls, s)

/-- `Logger::flush` (src/logger.rs): the body is empty. -/
def Logger.flush (_ : Logger) : Unit := ()

/-! ## Sample values used by witness theorems -/

/-- A writer delivering to stderr with color resolved to Never. -/
def sampleWriter : Writer := ⟨⟨.writeStderr, .never⟩⟩

/-- A logger whose filter matches everything, writing to
`sampleWriter` with the default format configuration. -/
def sampleLogger : Logger :=
  { filterMatches := fun _ => true
    writer := sampleWriter
    format := formatFnOf ⟨false, true, true, "\n"⟩ }

/-- An initial sink state: nothing written, pipe healthy, no injected
I/O failure. -/
def sampleSink : SinkState := ⟨"", "", "", false, false⟩

/-- The record of the end-to-end example in the spec. -/
def sampleRecord : Record := ⟨.info, "app", none, "started"⟩

/-! ## Helper lemmas about strings and the strip machine -/

theorem str_data_append (a b : String) : (a ++ b).data = a.data ++ b.data := rfl

theorem str_mk_data (s : String) : String.mk s.data = s := by
  cases s
  rfl

theorem styledValue_new (v : String) : styledValue Style.new v = v := by
  apply String.ext
  show ([] : List Char) ++ v.data ++ [] = v.data
  simp

/-- ESC never appears in a string: pointwise form of `hasEsc = false`. -/
theorem noEsc_of_hasEsc {s : String} (h : hasEsc s = false) :
    ∀ c ∈ s.data, c ≠ '\x1b' := by
  intro c hc
  have := List.any_eq_false.mp h c hc
  simpa using this

/-- Stripping an escape-free character list is the identity, and it
commutes with appending a tail. -/
theorem stripGo_clean_append (l : List Char) (h : ∀ c ∈ l, c ≠ '\x1b')
    (t : List Char) : stripGo .norm (l ++ t) = l ++ stripGo .norm t := by
  induction l with
  | nil => rfl
  | cons c r ih =>
      have hc : c ≠ '\x1b' := h c (List.mem_cons_self c r)
      have hr : ∀ x ∈ r, x ≠ '\x1b' := fun x hx => h x (List.mem_cons_of_mem c hx)
      simp [stripGo, hc, ih hr]

/-- `x` strips to `y` in any left context: the strip machine, started
in normal mode, turns `x ++ t` into `y ++` the stripped tail. -/
def StripsTo (x y : String) : Prop :=
  ∀ t : List Char, stripGo .norm (x.data ++ t) = y.data ++ stripGo .norm t

/-- A string the strip machine consumes entirely. -/
def Vanishes (e : String) : Prop :=
  ∀ t : List Char, stripGo .norm (e.data ++ t) = stripGo .norm t

theorem stripsTo_append {x y v w : String} (hx : StripsTo x y)
    (hv : StripsTo v w) : StripsTo (x ++ v) (y ++ w) := by
  intro t
  show stripGo .norm (x.data ++ v.data ++ t) = (y.data ++ w.data) ++ stripGo .norm t
  rw [List.append_assoc, hx, hv, List.append_assoc]

theorem stripsTo_of_clean (s : String) (h : hasEsc s = false) :
    StripsTo s s := fun t => stripGo_clean_append s.data (noEsc_of_hasEsc h) t

theorem vanishes_empty : Vanishes "" := fun _ => rfl

theorem vanishes_append {a b : String} (ha : Vanishes a) (hb : Vanishes b) :
    Vanishes (a ++ b) := by
  intro t
  show stripGo .norm (a.data ++ b.data ++ t) = stripGo .norm t
  rw [List.append_assoc, ha, hb]

theorem vanishes_csi_0 : Vanishes "\x1b[0m" := fun _ => rfl

theorem vanishes_csi_36 : Vanishes "\x1b[36m" := fun _ => rfl

theorem vanishes_csi_34 : Vanishes "\x1b[34m" := fun _ => rfl

theorem vanishes_csi_32 : Vanishes "\x1b[32m" := fun _ => rfl

theorem vanishes_csi_33 : Vanishes "\x1b[33m" := fun _ => rfl

theorem vanishes_csi_90 : Vanishes "\x1b[90m" := fun _ => rfl

theorem vanishes_csi_bold_red : Vanishes "\x1b[1m\x1b[31m" := fun _ => rfl

/-- A styled value whose style sequences vanish under the strip
machine strips to the bare value. -/
theorem styled_stripsTo (s : Style) (h1 : Vanishes s.openSeq)
    (h2 : Vanishes s.resetSeq) (v : String) (hv : hasEsc v = false) :
    StripsTo (styledValue s v) v := by
  intro t
  show stripGo .norm (s.openSeq.data ++ v.data ++ s.resetSeq.data ++ t)
      = v.data ++ stripGo .norm t
  rw [List.append_assoc, List.append_assoc, h1,
    stripGo_clean_append v.data (noEsc_of_hasEsc hv), h2]

theorem level_style_vanishes (cc : ColorChoice) (l : Level) :
    Vanishes (default_level_style cc l).openSeq ∧
      Vanishes (default_level_style cc l).resetSeq := by
  cases cc <;> cases l <;> exact ⟨fun _ => rfl, fun _ => rfl⟩

theorem subtle_style_vanishes (cc : ColorChoice) :
    Vanishes (DefaultFormat.subtle_style cc).openSeq ∧
      Vanishes (DefaultFormat.subtle_style cc).resetSeq := by
  cases cc <;> exact ⟨fun _ => rfl, fun _ => rfl⟩

theorem padTo5_noEsc (l : Level) : hasEsc (padTo5 l.asStr) = false := by
  cases l <;> decide

/-- Applying `StripsTo` with an empty tail: `stripAnsi` recovers the
target string. -/
theorem stripAnsi_of_stripsTo {x y : String} (h : StripsTo x y) :
    stripAnsi x = y := by
  have h0 := h []
  rw [List.append_nil] at h0
  show String.mk (stripGo .norm x.data) = y
  rw [show stripGo .norm ([] : List Char) = [] from rfl] at h0
  rw [h0, List.append_nil, str_mk_data]

theorem stripGo_length_le (l : List Char) :
    ∀ m, (stripGo m l).length ≤ l.length := by
  induction l with
  | nil => intro m; cases m <;> simp [stripGo]
  | cons c r ih =>
      intro m
      cases m with
      | norm =>
          by_cases hc : c = '\x1b'
          · simp only [stripGo, hc, if_pos rfl]
            exact Nat.le_succ_of_le (ih .esc)
          · simp only [stripGo, if_neg hc, List.length_cons]
            exact Nat.succ_le_succ (ih .norm)
      | esc =>
          by_cases hc : c = '['
          · simp only [stripGo, hc, if_pos rfl]
            exact Nat.le_succ_of_le (ih .csi)
          · simp only [stripGo, if_neg hc, List.length_cons]
            exact Nat.succ_le_succ (ih .norm)
      | csi =>
          by_cases hc : 0x40 ≤ c.toNat ∧ c.toNat ≤ 0x7e
          · simp only [stripGo, if_pos hc]
            exact Nat.le_succ_of_le (ih .norm)
          · simp only [stripGo, if_neg hc]
            exact Nat.le_succ_of_le (ih .csi)

theorem stripGo_length_lt_of_esc {l : List Char} (h : '\x1b' ∈ l) :
    (stripGo .norm l).length < l.length := by
  induction l with
  | nil => cases h
  | cons c r ih =>
      by_cases hc : c = '\x1b'
      · simp only [stripGo, hc, if_pos rfl, List.length_cons]
        exact Nat.lt_succ_of_le (stripGo_length_le r .esc)
      · have hr : '\x1b' ∈ r := by
          cases List.mem_cons.mp h with
          | inl h0 => exact absurd h0.symm hc
          | inr h0 => exact h0
        simp only [stripGo, if_neg hc, List.length_cons]
        exact Nat.succ_lt_succ (ih hr)

/-- A string equal to its own stripped form contains no ESC byte. -/
theorem hasEsc_false_of_stripAnsi_eq {s : String} (h : stripAnsi s = s) :
    hasEsc s = false := by
  by_contra hne
  have hmem : '\x1b' ∈ s.data := by
    rcases List.any_eq_true.mp (Bool.of_not_eq_false hne) with ⟨c, hc, he⟩
    rcases of_decide_eq_true he with rfl
    exact hc
  have hdata : stripGo .norm s.data = s.data := congrArg String.data h
  have := stripGo_length_lt_of_esc hmem
  rw [hdata] at this
  exact Nat.lt_irrefl _ this

/-! ## Relating a styled render to the Never render -/

/-- Invariant between a rendering run at color choice `cc` and the
same run at Never: the header flags agree and the styled buffer strips
to the plain buffer. -/
def StRel (stc stn : DFState) : Prop :=
  stc.written_header_value = stn.written_header_value ∧
    StripsTo stc.buf stn.buf

/-- The subtle-styled bracket glyphs strip to the bare glyph. -/
theorem subtle_glyph_stripsTo (cc : ColorChoice) (g : String)
    (hg : hasEsc g = false) :
    StripsTo (styledValue (DefaultFormat.subtle_style cc) g)
      (styledValue (DefaultFormat.subtle_style ColorChoice.never) g) := by
  rw [show DefaultFormat.subtle_style ColorChoice.never = Style.new from rfl,
    styledValue_new]
  exact styled_stripsTo _ (subtle_style_vanishes cc).1
    (subtle_style_vanishes cc).2 g hg

theorem write_header_value_rel (cc : ColorChoice) {stc stn : DFState}
    (h : StRel stc stn) {vc vn : String} (hv : StripsTo vc vn) :
    StRel (DefaultFormat.write_header_value cc stc vc)
      (DefaultFormat.write_header_value ColorChoice.never stn vn) := by
  unfold DefaultFormat.write_header_value
  rw [h.1]
  cases hw : stn.written_header_value
  · exact ⟨rfl, stripsTo_append
      (stripsTo_append h.2 (subtle_glyph_stripsTo cc "[" rfl)) hv⟩
  · exact ⟨rfl, stripsTo_append
      (stripsTo_append h.2 (stripsTo_of_clean " " rfl)) hv⟩

theorem write_level_rel (fmt : DefaultFormat) (cc : ColorChoice) (r : Record)
    {stc stn : DFState} (h : StRel stc stn) :
    StRel (fmt.write_level cc r stc) (fmt.write_level ColorChoice.never r stn) := by
  unfold DefaultFormat.write_level
  cases hl : fmt.level
  · exact h
  · apply write_header_value_rel cc h
    rw [show default_level_style ColorChoice.never r.level = Style.new from rfl,
      styledValue_new]
    exact styled_stripsTo _ (level_style_vanishes cc r.level).1
      (level_style_vanishes cc r.level).2 _ (padTo5_noEsc r.level)

theorem write_module_path_rel (fmt : DefaultFormat) (cc : ColorChoice)
    (r : Record) (hmp : hasEsc (r.module_path.getD "") = false)
    {stc stn : DFState} (h : StRel stc stn) :
    StRel (fmt.write_module_path cc r stc)
      (fmt.write_module_path ColorChoice.never r stn) := by
  unfold DefaultFormat.write_module_path
  cases hm : fmt.module_path
  · exact h
  · cases hcase : r.module_path with
    | none => exact h
    | some mp =>
        apply write_header_value_rel cc h
        apply stripsTo_of_clean
        rw [hcase] at hmp
        exact hmp

theorem write_target_rel (fmt : DefaultFormat) (cc : ColorChoice)
    (r : Record) (ht : hasEsc r.target = false)
    {stc stn : DFState} (h : StRel stc stn) :
    StRel (fmt.write_target cc r stc)
      (fmt.write_target ColorChoice.never r stn) := by
  unfold DefaultFormat.write_target
  cases htg : fmt.target
  · exact h
  · by_cases he : r.target = ""
    · simp only [if_pos he]
      exact h
    · simp only [if_neg he]
      exact write_header_value_rel cc h (stripsTo_of_clean _ ht)

theorem finish_header_rel (cc : ColorChoice) {stc stn : DFState}
    (h : StRel stc stn) :
    StRel (DefaultFormat.finish_header cc stc)
      (DefaultFormat.finish_header ColorChoice.never stn) := by
  unfold DefaultFormat.finish_header
  rw [h.1]
  cases hw : stn.written_header_value
  · exact h
  · exact ⟨rfl, stripsTo_append
      (stripsTo_append h.2 (subtle_glyph_stripsTo cc "]" rfl))
      (stripsTo_of_clean " " rfl)⟩

/-- The styled render of a record strips to the Never render, provided
the record's own text and the suffix carry no ESC byte of their own. -/
theorem write_stripsTo (fmt : DefaultFormat) (cc : ColorChoice) (r : Record)
    (hargs : hasEsc r.args = false) (ht : hasEsc r.target = false)
    (hmp : hasEsc (r.module_path.getD "") = false)
    (hsfx : hasEsc fmt.suffix = false) :
    StripsTo (fmt.write cc r "") (fmt.write ColorChoice.never r "") := by
  have h0 : StRel ⟨false, ""⟩ ⟨false, ""⟩ := ⟨rfl, fun _ => rfl⟩
  have h1 := write_level_rel fmt cc r h0
  have h2 := write_module_path_rel fmt cc r hmp h1
  have h3 := write_target_rel fmt cc r ht h2
  have h4 := finish_header_rel cc h3
  unfold DefaultFormat.write
  simp only [DefaultFormat.write_args]
  exact stripsTo_append
    (stripsTo_append h4.2 (stripsTo_of_clean r.args hargs))
    (stripsTo_of_clean fmt.suffix hsfx)

/-! ## Dispatch lemmas -/

/-- A witness logger whose format function always fails and whose sink
injects an I/O error on direct stream writes. -/
def failingLogger : Logger :=
  { filterMatches := fun _ => true
    writer := sampleWriter
    format := fun f _ => (f, Except.error ()) }

/-- A sink state whose next stream write fails with an I/O error. -/
def failingSink : SinkState := ⟨"", "", "", false, true⟩

/-- With the pipe mutex healthy, no print path panics: the only panic
in `BufferWriter::print` is the `unwrap` of a poisoned pipe lock. -/
theorem bufferWriter_print_no_panic (w : BufferWriter) (buf : String)
    (s : SinkState) (h : s.pipePoisoned = false) (msg : String) :
    (w.print buf s).1 ≠ PrintOutcome.panicked msg := by
  unfold BufferWriter.print
  cases ht : w.target <;> cases hio : s.ioError <;> simp [h, hio]

/-- With the pipe mutex healthy, the `print` closure of `Logger::log`
never propagates a panic: render errors short-circuit the print and
I/O errors are discarded. -/
theorem printStep_ne_error (lg : Logger) (f : Formatter) (r : Record)
    (s : SinkState) (h : s.pipePoisoned = false) (msg : String) :
    lg.printStep f r s ≠ Except.error msg := by
  intro hcontra
  unfold Logger.printStep at hcontra
  split at hcontra
  · exact Except.noConfusion hcontra
  next f1 u heq2 =>
    split at hcontra
    next f2 m s2 heq =>
      have hm : (f1.print lg.writer s).2.1 = PrintOutcome.panicked m := by
        rw [heq]
      exact absurd hm (bufferWriter_print_no_panic lg.writer.inner f1.buf s h m)
    · exact Except.noConfusion hcontra
    · exact Except.noConfusion hcontra

/-- With the pipe mutex healthy, the `print` closure of `Logger::log`
always returns normally. -/
theorem printStep_isOk (lg : Logger) (f : Formatter) (r : Record)
    (s : SinkState) (h : s.pipePoisoned = false) :
    ∃ p, lg.printStep f r s = Except.ok p := by
  cases hres : lg.printStep f r s with
  | ok p => exact ⟨p, rfl⟩
  | error msg => exact absurd hres (printStep_ne_error lg f r s h msg)

/-- Whenever the `print` closure returns normally, the Formatter it
hands back has an empty buffer: every non-panicking branch ends in
`formatter.clear()`. -/
theorem printStep_ok_buf_empty (lg : Logger) (f : Formatter) (r : Record)
    (s : SinkState) (f' : Formatter) (s' : SinkState)
    (h : lg.printStep f r s = Except.ok (f', s')) : f'.buf = "" := by
  unfold Logger.printStep at h
  split at h
  · injection h with h1
    injection h1 with hf hs
    rw [← hf]
    rfl
  · split at h
    · exact Except.noConfusion h
    · injection h with h1
      injection h1 with hf hs
      rw [← hf]
      rfl
    · injection h with h1
      injection h1 with hf hs
      rw [← hf]
      rfl

/-! ## Claim theorems -/

/-- C1: with the default format configuration (level on, module path
off, target on, newline suffix) and resolved color choice Never,
rendering a record with level Info, target "app", no module path and
message "started" through the rendering function built from the default
builder produces exactly the bytes of
open-bracket INFO, two spaces, app, close-bracket, space, started,
newline: the level is left-padded to width 5, header fields are
space-separated inside one bracket pair, and one space follows the
closing bracket. -/
theorem default_config_end_to_end :
    (FmtBuilder.build FmtBuilder.default).map
        (fun p =>
          (p.1 (Formatter.new ⟨⟨WritableTarget.writeStdout, ColorChoice.never⟩⟩)
            sampleRecord).1.buf) =
      Except.ok "[INFO  app] started\n" := rfl

/-- C2: with all three header fields disabled, the rendered output is
exactly the message followed by the suffix, for every record, every
suffix, and every color choice — no header bytes are emitted at all. -/
theorem headerless_render_is_message_and_suffix (cc : ColorChoice)
    (r : Record) (sfx : String) :
    DefaultFormat.write ⟨false, false, false, sfx⟩ cc r "" = r.args ++ sfx := by
  show ("" : String) ++ r.args ++ sfx = r.args ++ sfx
  rw [String.empty_append]

/-- C3: building a Writer from a Pipe target resolves the color choice
to Never regardless of the capability resolver, while Stdout and
Stderr targets take the choice the resolver reports for the
corresponding real stream, once, at build time. -/
theorem build_color_resolution (cap : Stream → ColorChoice) (b : WBuilder)
    (h : b.built = false) :
    (b.target = Target.pipe →
      (WBuilder.build cap b).map (fun p => p.1.write_style) =
        Except.ok ColorChoice.never) ∧
    (b.target = Target.stdout →
      (WBuilder.build cap b).map (fun p => p.1.write_style) =
        Except.ok (cap Stream.stdoutStream)) ∧
    (b.target = Target.stderr →
      (WBuilder.build cap b).map (fun p => p.1.write_style) =
        Except.ok (cap Stream.stderrStream)) := by
  refine ⟨?_, ?_, ?_⟩ <;> intro ht <;> unfold WBuilder.build <;> rw [h, ht] <;>
    rfl

/-- Witness for C3 at a concrete capability and a concrete pipe
builder. -/
theorem build_color_resolution_witness :
    (WBuilder.build (fun _ => ColorChoice.always)
        ⟨Target.pipe, false, false⟩).map (fun p => p.1.write_style) =
      Except.ok ColorChoice.never :=
  (build_color_resolution (fun _ => ColorChoice.always)
    ⟨Target.pipe, false, false⟩ rfl).1 rfl

/-- C4 counterexample: a Writer built with the test flag set does not
resolve its color choice to Never — with a capability reporting Always
for stdout, the built Writer's choice is Always even though the
capture variant PrintStdout was selected; and the capture print path
passes ANSI escapes through to the captured output verbatim. -/
theorem test_flag_never_counterexample :
    WBuilder.build (fun _ => ColorChoice.always) ⟨Target.stdout, false, true⟩ =
      Except.ok (⟨⟨WritableTarget.printStdout, ColorChoice.always⟩⟩,
        ⟨Target.stdout, true, true⟩) ∧
    ColorChoice.always ≠ ColorChoice.never ∧
    hasEsc ((BufferWriter.print ⟨WritableTarget.printStdout, ColorChoice.always⟩
        "\x1b[32mX\x1b[0m" ⟨"", "", "", false, false⟩).2.stdout) = true :=
  ⟨rfl, by decide, by decide⟩

/-- C4 amended: the test flag only selects the capture print variants
(PrintStdout / PrintStderr); the resolved color choice is taken from
the destination stream's capability exactly as in non-test mode, so
captured output may contain ANSI escapes when that choice is not
Never. -/
theorem test_flag_selects_capture_only (cap : Stream → ColorChoice)
    (t : Target) :
    (WBuilder.build cap ⟨t, false, true⟩).map (fun p => p.1.write_style) =
      (WBuilder.build cap ⟨t, false, false⟩).map (fun p => p.1.write_style) ∧
    (WBuilder.build cap ⟨Target.stdout, false, true⟩).map
        (fun p => p.1.inner.target) = Except.ok WritableTarget.printStdout ∧
    (WBuilder.build cap ⟨Target.stderr, false, true⟩).map
        (fun p => p.1.inner.target) = Except.ok WritableTarget.printStderr := by
  refine ⟨?_, rfl, rfl⟩
  cases t <;> rfl

/-- C5 counterexample: ANSI escapes are not present "iff the resolved
color choice is not Never" — with all header fields disabled the
output of an Always-colored render contains no escape at all. -/
theorem escapes_iff_color_counterexample :
    hasEsc (DefaultFormat.write ⟨false, false, false, "\n"⟩ ColorChoice.always
        ⟨Level.info, "app", none, "x"⟩ "") = false ∧
    ColorChoice.always ≠ ColorChoice.never :=
  ⟨by decide, by decide⟩

/-- C5 amended: for records and suffixes that carry no ESC byte of
their own, the Never render contains no escape sequence, and for every
color choice the styled render is byte-identical to the Never render
once its escape sequences are removed. (Styling escapes can appear
only when the choice is not Never, but need not: a render that emits
no header field emits no styling.) -/
theorem color_strip_amended (fmt : DefaultFormat) (cc : ColorChoice)
    (r : Record) (hargs : hasEsc r.args = false)
    (ht : hasEsc r.target = false)
    (hmp : hasEsc (r.module_path.getD "") = false)
    (hsfx : hasEsc fmt.suffix = false) :
    hasEsc (fmt.write ColorChoice.never r "") = false ∧
    stripAnsi (fmt.write cc r "") = fmt.write ColorChoice.never r "" := by
  have h2 := stripAnsi_of_stripsTo (write_stripsTo fmt cc r hargs ht hmp hsfx)
  have h1 := stripAnsi_of_stripsTo
    (write_stripsTo fmt ColorChoice.never r hargs ht hmp hsfx)
  exact ⟨hasEsc_false_of_stripAnsi_eq h1, h2⟩

/-- Witness for C5 amended at a concrete configuration with all header
fields enabled, a bold-red Error record, and color on. -/
theorem color_strip_amended_witness :
    hasEsc (DefaultFormat.write ⟨true, true, true, "\n"⟩ ColorChoice.never
        ⟨Level.error, "app", some "mod", "boom"⟩ "") = false ∧
    stripAnsi (DefaultFormat.write ⟨true, true, true, "\n"⟩ ColorChoice.always
        ⟨Level.error, "app", some "mod", "boom"⟩ "") =
      DefaultFormat.write ⟨true, true, true, "\n"⟩ ColorChoice.never
        ⟨Level.error, "app", some "mod", "boom"⟩ "" :=
  color_strip_amended ⟨true, true, true, "\n"⟩ ColorChoice.always
    ⟨Level.error, "app", some "mod", "boom"⟩
    (by decide) (by decide) (by decide) (by decide)

/-- C6: as long as the pipe mutex is not poisoned (panics are a
separate, intended fatal path), `Logger::log` returns normally for
every record, every thread-local state, and every sink state —
including states that inject I/O errors and loggers whose format
function fails — and `Logger::flush` does nothing and cannot fail. -/
theorem log_swallows_errors_flush_noop (lg : Logger) (tls : TLSlot)
    (r : Record) (s : SinkState) (h : s.pipePoisoned = false) :
    (∃ p, lg.log tls r s = Except.ok p) ∧ Logger.flush lg = () := by
  refine ⟨?_, rfl⟩
  unfold Logger.log
  cases hm : lg.matches r
  · exact ⟨_, rfl⟩
  · cases tls with
    | unavailable =>
        obtain ⟨p, hp⟩ := printStep_isOk lg (Formatter.new lg.writer) r s h
        exact ⟨_, by rw [hp]; rfl⟩
    | borrowed =>
        obtain ⟨p, hp⟩ := printStep_isOk lg (Formatter.new lg.writer) r s h
        exact ⟨_, by rw [hp]; rfl⟩
    | stored of =>
        cases of with
        | none =>
            obtain ⟨p, hp⟩ := printStep_isOk lg (Formatter.new lg.writer) r s h
            exact ⟨_, by rw [hp]; rfl⟩
        | some f0 =>
            obtain ⟨p, hp⟩ := printStep_isOk lg
              (if f0.write_style ≠ lg.writer.write_style then
                Formatter.new lg.writer else f0) r s h
            refine ⟨(TLSlot.stored (some p.1), p.2), ?_⟩
            show (lg.printStep
                (if f0.write_style ≠ lg.writer.write_style then
                  Formatter.new lg.writer else f0) r s).map
                (fun q => (TLSlot.stored (some q.1), q.2)) =
              Except.ok (TLSlot.stored (some p.1), p.2)
            rw [hp]
            rfl

/-- Witness for C6 with a logger whose format function always returns
an I/O error and a sink that injects a stream-write failure. -/
theorem log_swallows_errors_witness :
    (∃ p, failingLogger.log (TLSlot.stored none) sampleRecord failingSink =
      Except.ok p) ∧
    Logger.flush failingLogger = () :=
  log_swallows_errors_flush_noop failingLogger (TLSlot.stored none)
    sampleRecord failingSink rfl

/-- C7: calling build() on an already-consumed builder — the writer
builder or the format builder — panics with the reuse diagnostic
rather than returning a recoverable error, and printing to a Pipe
target whose mutex is poisoned panics rather than returning an I/O
error. -/
theorem builder_reuse_and_poison_panic :
    (∀ (cap : Stream → ColorChoice) (b : WBuilder), b.built = false →
      ∃ w b', WBuilder.build cap b = Except.ok (w, b') ∧ b'.built = true ∧
        WBuilder.build cap b' =
          Except.error "attempt to re-use consumed builder") ∧
    (∀ fb : FmtBuilder, fb.built = false →
      ∃ fn fb', FmtBuilder.build fb = Except.ok (fn, fb') ∧
        fb'.built = true ∧
        FmtBuilder.build fb' =
          Except.error "attempt to re-use consumed builder") ∧
    (∀ (cc : ColorChoice) (buf : String) (s : SinkState),
      s.pipePoisoned = true →
      BufferWriter.print ⟨WritableTarget.pipe, cc⟩ buf s =
        (PrintOutcome.panicked "PoisonError", s)) := by
  refine ⟨?_, ?_, ?_⟩
  · intro cap b h
    obtain ⟨t, bt, it⟩ := b
    have hb : bt = false := h
    subst hb
    cases t
    · exact ⟨_, _, rfl, rfl, rfl⟩
    · exact ⟨_, _, rfl, rfl, rfl⟩
    · exact ⟨_, _, rfl, rfl, rfl⟩
  · intro fb h
    obtain ⟨mp, tg, lv, sf, bt⟩ := fb
    have hb : bt = false := h
    subst hb
    exact ⟨_, _, rfl, rfl, rfl⟩
  · intro cc buf s h
    unfold BufferWriter.print
    rw [h]
    rfl

/-- Witness for C7: a fresh stderr writer builder, the default format
builder, and a poisoned pipe sink. -/
theorem builder_reuse_and_poison_panic_witness :
    (∃ w b', WBuilder.build (fun _ => ColorChoice.always)
        ⟨Target.stderr, false, false⟩ = Except.ok (w, b') ∧ b'.built = true ∧
      WBuilder.build (fun _ => ColorChoice.always) b' =
        Except.error "attempt to re-use consumed builder") ∧
    (∃ fn fb', FmtBuilder.build FmtBuilder.default = Except.ok (fn, fb') ∧
      fb'.built = true ∧
      FmtBuilder.build fb' =
        Except.error "attempt to re-use consumed builder") ∧
    BufferWriter.print ⟨WritableTarget.pipe, ColorChoice.never⟩ "x"
        ⟨"", "", "", true, false⟩ =
      (PrintOutcome.panicked "PoisonError", ⟨"", "", "", true, false⟩) :=
  ⟨builder_reuse_and_poison_panic.1 (fun _ => ColorChoice.always)
      ⟨Target.stderr, false, false⟩ rfl,
   builder_reuse_and_poison_panic.2.1 FmtBuilder.default rfl,
   builder_reuse_and_poison_panic.2.2 ColorChoice.never "x"
      ⟨"", "", "", true, false⟩ rfl⟩

/-- C8: for a record that matches the filter, when the thread-local
slot is borrowed (re-entrant call) or unavailable (thread tearing
down), `Logger::log` falls back to a one-shot Formatter and still
renders and prints the record — it returns normally with exactly the
sink effect of the fresh-Formatter print path, and the record is not
dropped. -/
theorem tls_fallback_still_prints (lg : Logger) (r : Record) (s : SinkState)
    (hm : lg.matches r = true) (hp : s.pipePoisoned = false) :
    ∃ f' s', lg.printStep (Formatter.new lg.writer) r s =
        Except.ok (f', s') ∧
      lg.log TLSlot.unavailable r s = Except.ok (TLSlot.unavailable, s') ∧
      lg.log TLSlot.borrowed r s = Except.ok (TLSlot.borrowed, s') := by
  obtain ⟨⟨f', s'⟩, hps⟩ := printStep_isOk lg (Formatter.new lg.writer) r s hp
  refine ⟨f', s', hps, ?_, ?_⟩ <;> unfold Logger.log <;> rw [hm, hps] <;> rfl

/-- Witness for C8 with the sample logger and record. -/
theorem tls_fallback_still_prints_witness :
    ∃ f' s', sampleLogger.printStep (Formatter.new sampleLogger.writer)
        sampleRecord sampleSink = Except.ok (f', s') ∧
      sampleLogger.log TLSlot.unavailable sampleRecord sampleSink =
        Except.ok (TLSlot.unavailable, s') ∧
      sampleLogger.log TLSlot.borrowed sampleRecord sampleSink =
        Except.ok (TLSlot.borrowed, s') :=
  tls_fallback_still_prints sampleLogger sampleRecord sampleSink rfl rfl

/-- C9: whenever the `print` closure used by `Logger::log` returns
normally — whether rendering and printing succeeded or returned an
I/O error — the Formatter it used ends with an empty buffer; in
particular, after a `log` call on a matching record that leaves a
cached Formatter in the thread-local slot, that Formatter's buffer is
empty. -/
theorem log_clears_formatter_buffer :
    (∀ (lg : Logger) (f : Formatter) (r : Record) (s : SinkState)
        (f' : Formatter) (s' : SinkState),
      lg.printStep f r s = Except.ok (f', s') → f'.buf = "") ∧
    (∀ (lg : Logger) (tls : TLSlot) (r : Record) (s : SinkState)
        (f' : Formatter) (s' : SinkState),
      lg.matches r = true →
      lg.log tls r s = Except.ok (TLSlot.stored (some f'), s') →
      f'.buf = "") := by
  refine ⟨printStep_ok_buf_empty, ?_⟩
  intro lg tls r s f' s' hm h
  unfold Logger.log at h
  rw [hm] at h
  cases tls with
  | unavailable =>
      have h2 : (lg.printStep (Formatter.new lg.writer) r s).map
          (fun q => (TLSlot.unavailable, q.2)) =
        Except.ok (TLSlot.stored (some f'), s') := h
      rcases hps : lg.printStep (Formatter.new lg.writer) r s with e | ⟨f2, s2⟩ <;>
        rw [hps] at h2 <;> simp [Except.map] at h2
  | borrowed =>
      have h2 : (lg.printStep (Formatter.new lg.writer) r s).map
          (fun q => (TLSlot.borrowed, q.2)) =
        Except.ok (TLSlot.stored (some f'), s') := h
      rcases hps : lg.printStep (Formatter.new lg.writer) r s with e | ⟨f2, s2⟩ <;>
        rw [hps] at h2 <;> simp [Except.map] at h2
  | stored of =>
      cases of with
      | none =>
          have h2 : (lg.printStep (Formatter.new lg.writer) r s).map
              (fun q => (TLSlot.stored (some q.1), q.2)) =
            Except.ok (TLSlot.stored (some f'), s') := h
          rcases hps : lg.printStep (Formatter.new lg.writer) r s with e | ⟨f2, s2⟩ <;>
            rw [hps] at h2 <;> simp [Except.map] at h2
          obtain ⟨h4, h5⟩ := h2
          subst h4
          exact printStep_ok_buf_empty lg (Formatter.new lg.writer) r s _ s2 hps
      | some f0 =>
          have h2 : (lg.printStep
              (if f0.write_style ≠ lg.writer.write_style then
                Formatter.new lg.writer else f0) r s).map
              (fun q => (TLSlot.stored (some q.1), q.2)) =
            Except.ok (TLSlot.stored (some f'), s') := h
          rcases hps : lg.printStep
              (if f0.write_style ≠ lg.writer.write_style then
                Formatter.new lg.writer else f0) r s with e | ⟨f2, s2⟩ <;>
            rw [hps] at h2 <;> simp [Except.map] at h2
          obtain ⟨h4, h5⟩ := h2
          subst h4
          exact printStep_ok_buf_empty lg _ r s _ s2 hps

/-- Witness for C9: a cached Formatter holding leftover bytes is
cleared by the print closure. -/
theorem log_clears_formatter_buffer_witness :
    sampleLogger.printStep ⟨"leftover", ColorChoice.never⟩ sampleRecord
        sampleSink =
      Except.ok (⟨"", ColorChoice.never⟩,
        ⟨"", "leftover[INFO  app] started\n", "", false, false⟩) ∧
    Formatter.buf ⟨"", ColorChoice.never⟩ = "" :=
  ⟨rfl,
   log_clears_formatter_buffer.1 sampleLogger ⟨"leftover", ColorChoice.never⟩
     sampleRecord sampleSink ⟨"", ColorChoice.never⟩
     ⟨"", "leftover[INFO  app] started\n", "", false, false⟩ rfl⟩

/-- C10: `Formatter::print` does not modify the Formatter: the buffer
bytes after a print are identical to the bytes before, for every
buffer state, writer and sink state — buffer contents are only removed
by an explicit `clear`. -/
theorem formatter_print_preserves_buffer (f : Formatter) (w : Writer)
    (s : SinkState) :
    ((f.print w s).1).buf = f.buf ∧ (f.print w s).1 = f := ⟨rfl, rfl⟩

end Logging
